import Mathlib

/-!
Verification of the Port Adapter of the Sciebo-RDS exporter
(`RDS/circle2_use_cases/exporter/src/lib/Service.py`).

The adapter (Python class `Service`) is embedded shallowly:

* the object state is `ServiceState`;
* every HTTP round trip is resolved through an explicit oracle `Env`
  describing what each backend endpoint would answer (`none` means the
  transport raises, i.e. the backend is unreachable);
* Python exceptions (`IndexError` on bad list indices, `TypeError` on
  iterating or subscripting `None`, transport errors) are the error
  component of `Except PyErr`;
* methods that can mutate the object return the object state next to the
  result; when an exception escapes, the state component records the
  mutations that had already happened (Python objects keep them).

Python `bytes` values are lists of naturals, JSON string values are
`String`, and Python `None`-or-value fields are `Option`.
-/

/-- Decidable equality of `Except` results, so that concrete runs can be
checked by evaluation. -/
instance exceptDecEq {ε α : Type} [DecidableEq ε] [DecidableEq α] :
    DecidableEq (Except ε α) := fun a b =>
  match a, b with
  | .ok x, .ok y =>
    if h : x = y then .isTrue (by rw [h]) else .isFalse (by simp [h])
  | .error x, .error y =>
    if h : x = y then .isTrue (by rw [h]) else .isFalse (by simp [h])
  | .ok _, .error _ => .isFalse (by simp)
  | .error _, .ok _ => .isFalse (by simp)

/-- Exceptions the adapter code can raise. -/
inductive PyErr where
  | indexError
  | typeError
  | networkError
deriving DecidableEq, Repr

/-- Python list indexing: a (possibly negative) index `i` into a list of
length `n` resolves to position `i` if `0 ≤ i < n`, to position `n + i` if
`-n ≤ i < 0`, and is out of range otherwise. -/
def pyIndex (n : Nat) (i : Int) : Option Nat :=
  if 0 ≤ i then
    if i < (n : Int) then some i.toNat else none
  else
    if (-i) ≤ (n : Int) then some (n - (-i).toNat) else none

/-- Python `str.lower()` (character-wise lowercasing). -/
def pyLower (s : String) : String := ⟨s.data.map Char.toLower⟩

/-- Python `str.startswith(t)`. -/
def pyStartsWith (s t : String) : Bool :=
  decide (s.data.take t.data.length = t.data)

/-- Python `str.endswith(t)`. -/
def pyEndsWith (s t : String) : Bool :=
  decide (t.data.length ≤ s.data.length) &&
  decide (s.data.drop (s.data.length - t.data.length) = t.data)

/-- Python `s[:-1]` (drop the last character). -/
def pyDropLast (s : String) : String := ⟨s.data.dropLast⟩

/-- Python `xs[i]` list access semantics (`none` = `IndexError`). -/
def pyGet (xs : List String) (i : Int) : Option String :=
  (pyIndex xs.length i).map (fun k => xs.getD k "")

/-- Python `del xs[i]` semantics (`none` = `IndexError`). -/
def pyDel (xs : List String) (i : Int) : Option (List String) :=
  (pyIndex xs.length i).map (fun k => xs.eraseIdx k)

/-- State of one `Service` adapter object.  `files` and
`customProperties` are `Option` because the Python attributes can hold
`None`: the constructor default for `customProperties` is `None`, and
`reload` stores `json.get("files")`, which is `None` when the response
has no `files` field. -/
structure ServiceState where
  servicename : String
  port : String
  portaddress : String
  userId : String
  researchIndex : Int
  fileStorage : Bool
  metadata : Bool
  customProperties : Option (List (String × String))
  files : Option (List String)
  useZipForFolder : Bool
  fileTransferMode : Nat
  loginMode : Nat
  credentials : Option (List (String × String))
deriving DecidableEq, Repr

/-- Body of a `GET <base>/metadata/informations` response. -/
structure InfoResp where
  fileTransferArchive : Option String
  fileTransferMode : Option Nat
  loginMode : Option Nat
  credentials : Option (List (String × String))
deriving DecidableEq, Repr

/-- Oracle for the backend endpoints the adapter talks to.  A `none`
answer models the HTTP library raising (unreachable backend); endpoints
whose result depends on the request payload are functions of it. -/
structure Env where
  /-- Answer of `GET /storage/folder`: the `files` field of the JSON answer
  (`some none` = a response without a `files` field). -/
  storageFolder : Option (Option (List String))
  /-- Answer of `GET /metadata/informations`. -/
  metadataInformations : Option InfoResp
  /-- Answer of `GET /storage/file` for a given remote filepath: raw bytes. -/
  storageFileGet : String → Option (List Nat)
  /-- Status answered by `DELETE /storage/file` for a given remote filepath. -/
  storageFileDelete : String → Option Nat
  /-- Status answered by `POST /metadata/project/<id>/files` (passive-mode trigger). -/
  metadataTriggerPost : Option Nat
  /-- Status answered by `POST /metadata/project/<id>/files` (file upload). -/
  metadataAddPost : Option Nat
  /-- Status answered by `DELETE /metadata/project/<id>/files/<fileId>`. -/
  metadataFileDelete : Int → Option Nat
  /-- Status answered by `DELETE /metadata/project/<id>/files` (bulk). -/
  metadataFilesDeleteAll : Option Nat

namespace Service

/-- Model of `Service.getProperty`: linear scan of `customProperties` for the
first pair whose key matches; `None` on miss.  Iterating a `None`
properties attribute raises a `TypeError`. -/
def getProperty (s : ServiceState) (key : String) :
    Except PyErr (Option String) :=
  match s.customProperties with
  | none => .error .typeError
  | some props => .ok (scan props)
where
  /-- the `for prop in self.customProperties` loop -/
  scan : List (String × String) → Option String
    | [] => none
    | p :: rest => if p.1 = key then some p.2 else scan rest

/-- Model of `Service.getFilepath`: the `filepath` custom property with a trailing
slash stripped (`str(None)` does not end in a slash, so a missing
property passes through as `None`). -/
def getFilepath (s : ServiceState) : Except PyErr (Option String) :=
  (getProperty s "filepath").map stripSlash
where
  /-- the trailing-slash strip -/
  stripSlash : Option String → Option String
    | none => none
    | some v => some (if pyEndsWith v "/" then pyDropLast v else v)

/-- Model of `Service.getProjectId`: the `projectId` custom property. -/
def getProjectId (s : ServiceState) : Except PyErr (Option String) :=
  getProperty s "projectId"

/-- Python `"{}/{}".format(filepath, file)` — the formatting renders a `None` filepath
as the string `None`. -/
def fmtPath (fp : Option String) (file : String) : String :=
  (match fp with | none => "None" | some r => r) ++ "/" ++ file

/-- Model of `Service.reloadInformations`: fetch `/metadata/informations` and
update the transfer settings (archive mode defaults to off, transfer
mode to `0`, login mode to `1`; static credentials are captured when the
login mode is `0`). -/
def reloadInformations (s : ServiceState) (env : Env) :
    Except PyErr Unit × ServiceState :=
  match env.metadataInformations with
  | none => (.error .networkError, s)
  | some info =>
    let lm := info.loginMode.getD 1
    (.ok (),
      { s with
        useZipForFolder := info.fileTransferArchive.getD "" = "zip"
        fileTransferMode := info.fileTransferMode.getD 0
        loginMode := lm
        credentials :=
          if lm = 0 then some (info.credentials.getD []) else s.credentials })

/-- Model of `Service.reload`: if `fileStorage` is enabled, list the storage
folder and store the `files` field of the answer into `files`; then, if
`metadata` is enabled, refresh the metadata settings.  A failing branch
raises, leaving the mutations made so far in place. -/
def reload (s : ServiceState) (env : Env) :
    Except PyErr Unit × ServiceState :=
  let step1 : Except PyErr Unit × ServiceState :=
    if s.fileStorage then
      match getFilepath s with
      | .error e => (.error e, s)
      | .ok _ =>
        match env.storageFolder with
        | none => (.error .networkError, s)
        | some resp => (.ok (), { s with files := resp })
    else (.ok (), s)
  match step1 with
  | (.error e, s1) => (.error e, s1)
  | (.ok (), s1) =>
    if s1.metadata then reloadInformations s1 env else (.ok (), s1)

/-- The attribute setup of `Service.__init__`: normalize the port name
(names not already starting with `port-` get lowercased and prefixed
with it), derive the base address
`http://circle1-<normalized name lowercased>` unless a testing override
is given, and initialise the file cache to `[]`. -/
def initState (servicename userId : String) (researchIndex : Int)
    (fileStorage metadata : Bool)
    (customProperties : Option (List (String × String)))
    (testing : Option String) : ServiceState :=
  let normalized :=
    if pyStartsWith servicename "port-" then servicename
    else "port-" ++ pyLower servicename
  let addr :=
    match testing with
    | some t => t
    | none => "http://circle1-" ++ pyLower normalized
  { servicename := servicename
    port := normalized
    portaddress := addr
    userId := userId
    researchIndex := researchIndex
    fileStorage := fileStorage
    metadata := metadata
    customProperties := customProperties
    files := some []
    useZipForFolder := false
    fileTransferMode := 0
    loginMode := 1
    credentials := none }

/-- Model of `Service.__init__`: attribute setup followed by the initial
`reload`; a `reload` failure aborts construction. -/
def init (servicename userId : String) (researchIndex : Int)
    (fileStorage metadata : Bool)
    (customProperties : Option (List (String × String)))
    (testing : Option String) (env : Env) : Except PyErr ServiceState :=
  match reload (initState servicename userId researchIndex fileStorage
      metadata customProperties testing) env with
  | (.ok (), s1) => .ok s1
  | (.error e, _) => .error e

/-- Model of `Service.getDict`: the serializable projection — service name plus
the cached file listing (materialising `getFiles()` iterates `files`, a
`TypeError` when it is `None`). -/
def getDict (s : ServiceState) : Except PyErr (String × List String) :=
  match s.files with
  | none => .error .typeError
  | some fs => .ok (s.servicename, fs)

/-- Model of `Service.getFile`: index into the cache (Python semantics), then
fetch the bytes of `<rootFilepath>/<file>` from the storage backend when
`fileStorage` is enabled, and return an empty buffer otherwise. -/
def getFile (s : ServiceState) (env : Env) (i : Int) :
    Except PyErr (List Nat) :=
  match s.files with
  | none => .error .typeError
  | some fs =>
    match pyIndex fs.length i with
    | none => .error .indexError
    | some k =>
      let file := fs.getD k ""
      if s.fileStorage then
        match getFilepath s with
        | .error e => .error e
        | .ok fp =>
          match env.storageFileGet (fmtPath fp file) with
          | none => .error .networkError
          | some bytes => .ok bytes
      else .ok []

/-- Model of `Service.triggerPassiveMode`: the debug log line materialises
`getJSON()` first; then, when `metadata` is enabled, posts the trigger
and returns `False` on a status ≥ 300; returns `True` in every other
case. -/
def triggerPassiveMode (s : ServiceState) (env : Env) (folder : String) :
    Except PyErr Bool :=
  match getDict s with
  | .error e => .error e
  | .ok _ =>
    if s.metadata then
      match getProjectId s with
      | .error e => .error e
      | .ok _ =>
        match env.metadataTriggerPost with
        | none => .error .networkError
        | some st => if 300 ≤ st then .ok false else .ok true
    else .ok true

/-- Model of `Service.addFile`: the debug log line materialises `getJSON()`
first; when `metadata` is enabled, uploads and returns `False` on a
status ≥ 300; the `fileStorage` branch is a `pass`; returns `True` in
every other case and never touches the file cache. -/
def addFile (s : ServiceState) (env : Env) (filename : String)
    (fileContent : List Nat) : Except PyErr Bool × ServiceState :=
  match getDict s with
  | .error e => (.error e, s)
  | .ok _ =>
    if s.metadata then
      match getProjectId s with
      | .error e => (.error e, s)
      | .ok _ =>
        match env.metadataAddPost with
        | none => (.error .networkError, s)
        | some st => if 300 ≤ st then (.ok false, s) else (.ok true, s)
    else (.ok true, s)

/-- Model of `Service.removeFile`: index into the cache, attempt the storage
delete (by remote path) and the metadata delete (by raw index) for the
enabled capabilities, OR the two success flags, and on success delete
the cache entry and return `True`; otherwise return `False`. -/
def removeFile (s : ServiceState) (env : Env) (i : Int) :
    Except PyErr Bool × ServiceState :=
  match s.files with
  | none => (.error .typeError, s)
  | some fs =>
    match pyIndex fs.length i with
    | none => (.error .indexError, s)
    | some k =>
      let file := fs.getD k ""
      let storageStep : Except PyErr Bool :=
        if s.fileStorage then
          match getFilepath s with
          | .error e => .error e
          | .ok fp =>
            match env.storageFileDelete (fmtPath fp file) with
            | none => .error .networkError
            | some st => .ok (decide (st < 300))
        else .ok false
      match storageStep with
      | .error e => (.error e, s)
      | .ok found1 =>
        let metaStep : Except PyErr Bool :=
          if s.metadata then
            match getProjectId s with
            | .error e => .error e
            | .ok _ =>
              match env.metadataFileDelete i with
              | none => .error .networkError
              | some st => .ok (decide (st < 300))
          else .ok false
        match metaStep with
        | .error e => (.error e, s)
        | .ok found2 =>
          if found1 || found2 then
            (.ok true, { s with files := some (fs.eraseIdx k) })
          else (.ok false, s)

/-- Model of `Service.removeAllFiles`: the `fileStorage` branch is a placeholder
that sets the success flag without any request; the `metadata` branch
issues the bulk delete and ORs in its success; on success the adapter
`reload`s instead of clearing the cache locally. -/
def removeAllFiles (s : ServiceState) (env : Env) :
    Except PyErr Bool × ServiceState :=
  let found1 := s.fileStorage
  let metaStep : Except PyErr Bool :=
    if s.metadata then
      match getProjectId s with
      | .error e => .error e
      | .ok _ =>
        match env.metadataFilesDeleteAll with
        | none => .error .networkError
        | some st => .ok (decide (st < 300))
    else .ok false
  match metaStep with
  | .error e => (.error e, s)
  | .ok found2 =>
    if found1 || found2 then
      match reload s env with
      | (.ok (), s1) => (.ok true, s1)
      | (.error e, s1) => (.error e, s1)
    else (.ok false, s)

end Service

/-! ### Concrete adapters and backends used to evaluate the theorems -/

/-- A backend oracle on which every endpoint is unreachable. -/
def envNone : Env :=
  { storageFolder := none
    metadataInformations := none
    storageFileGet := fun _ => none
    storageFileDelete := fun _ => none
    metadataTriggerPost := none
    metadataAddPost := none
    metadataFileDelete := fun _ => none
    metadataFilesDeleteAll := none }

/-- An adapter state with the given capabilities, properties and cache. -/
def mkState (fileStorage metadata : Bool)
    (cps : Option (List (String × String))) (files : Option (List String)) :
    ServiceState :=
  { servicename := "svc"
    port := "port-svc"
    portaddress := "http://circle1-port-svc"
    userId := "user0"
    researchIndex := 0
    fileStorage := fileStorage
    metadata := metadata
    customProperties := cps
    files := files
    useZipForFolder := false
    fileTransferMode := 0
    loginMode := 1
    credentials := none }

/-- The property list `[{"key": "filepath", ...}, {"key": "projectId", ...}]`. -/
def cpsW : List (String × String) := [("filepath", "f"), ("projectId", "p")]

/-- Adapter with both capabilities and two cached files. -/
def sBoth : ServiceState := mkState true true (some cpsW) (some ["a.txt", "b.txt"])

/-- Adapter with only `FileStorage` and one cached file. -/
def sStore : ServiceState := mkState true false (some cpsW) (some ["a.txt"])

/-- Adapter with only `Metadata` and one cached file. -/
def sMeta : ServiceState := mkState false true (some cpsW) (some ["a.txt"])

/-- The state `Service("x", "u", 0)` constructs: no capabilities and the
`customProperties` attribute left at its `None` default. -/
def sNoProps : ServiceState :=
  { servicename := "x"
    port := "port-x"
    portaddress := "http://circle1-port-x"
    userId := "u"
    researchIndex := 0
    fileStorage := false
    metadata := false
    customProperties := none
    files := some []
    useZipForFolder := false
    fileTransferMode := 0
    loginMode := 1
    credentials := none }

/-- Backend whose folder listing answers without a `files` field. -/
def envMissingFiles : Env := { envNone with storageFolder := some none }

/-- Backend whose folder listing answers `["b.txt"]` but whose metadata
endpoint is unreachable. -/
def envMetaDown : Env := { envNone with storageFolder := some (some ["b.txt"]) }

/-- Backend whose folder listing answers `["c.txt"]`. -/
def envListC : Env := { envNone with storageFolder := some (some ["c.txt"]) }

/-- Backend for the witness scenarios: the storage delete fails with 500,
the metadata delete succeeds with 204, the upload is rejected with 404,
the trigger succeeds with 200, the bulk delete succeeds with 204, and the
listing comes back empty. -/
def envW : Env :=
  { storageFolder := some (some [])
    metadataInformations :=
      some { fileTransferArchive := some "zip"
             fileTransferMode := some 0
             loginMode := some 1
             credentials := none }
    storageFileGet := fun _ => some [104, 105]
    storageFileDelete := fun _ => some 500
    metadataTriggerPost := some 200
    metadataAddPost := some 404
    metadataFileDelete := fun _ => some 204
    metadataFilesDeleteAll := some 204 }

/-! ### Helper lemmas -/

theorem pyIndex_pos (n : Nat) (i : Int) (h0 : 0 ≤ i) (h1 : i < (n : Int)) :
    pyIndex n i = some i.toNat := by
  unfold pyIndex
  rw [if_pos h0, if_pos h1]

theorem pyIndex_neg (n : Nat) (i : Int) (h0 : -(n : Int) ≤ i) (h1 : i < 0) :
    pyIndex n i = some (i + n).toNat := by
  unfold pyIndex
  rw [if_neg (by omega), if_pos (by omega)]
  congr 1
  omega

theorem pyIndex_out (n : Nat) (i : Int) (h : (n : Int) ≤ i ∨ i < -(n : Int)) :
    pyIndex n i = none := by
  unfold pyIndex
  rcases h with h | h
  · rw [if_pos (by omega), if_neg (by omega)]
  · rw [if_neg (by omega), if_neg (by omega)]

theorem pyIndex_lt (n : Nat) (i : Int) (k : Nat) (h : pyIndex n i = some k) :
    k < n := by
  unfold pyIndex at h
  split at h <;> split at h <;> simp_all <;> omega

theorem scan_eq_find (key : String) (ps : List (String × String)) :
    Service.getProperty.scan key ps =
      (ps.find? (fun p => p.1 == key)).map Prod.snd := by
  induction ps with
  | nil => rfl
  | cons p rest ih =>
    by_cases h : p.1 = key
    · simp [Service.getProperty.scan, List.find?, h]
    · have hb : (p.1 == key) = false := by simp [h]
      simp [Service.getProperty.scan, List.find?, h, hb, ih]

theorem getProperty_some (s : ServiceState) (ps : List (String × String))
    (key : String) (hc : s.customProperties = some ps) :
    Service.getProperty s key = .ok (Service.getProperty.scan key ps) := by
  simp [Service.getProperty, hc]

theorem getFilepath_some (s : ServiceState) (ps : List (String × String))
    (hc : s.customProperties = some ps) :
    Service.getFilepath s =
      .ok (Service.getFilepath.stripSlash
            (Service.getProperty.scan "filepath" ps)) := by
  simp [Service.getFilepath, getProperty_some s ps _ hc, Except.map]

theorem reloadInformations_files (s : ServiceState) (env : Env) :
    (Service.reloadInformations s env).2.files = s.files := by
  unfold Service.reloadInformations
  cases env.metadataInformations <;> simp

theorem reloadInformations_address (s : ServiceState) (env : Env) :
    (Service.reloadInformations s env).2.port = s.port ∧
    (Service.reloadInformations s env).2.portaddress = s.portaddress := by
  unfold Service.reloadInformations
  cases env.metadataInformations <;> simp

theorem reload_address (s : ServiceState) (env : Env) :
    (Service.reload s env).2.port = s.port ∧
    (Service.reload s env).2.portaddress = s.portaddress := by
  unfold Service.reload
  rcases hfs : s.fileStorage with _ | _
  · simp only [Bool.false_eq_true, if_false]
    split
    · exact reloadInformations_address s env
    · exact ⟨rfl, rfl⟩
  · simp only [if_true]
    rcases hfp : Service.getFilepath s with e | fp
    · simp
    · rcases hsf : env.storageFolder with _ | resp
      · simp
      · simp only []
        split
        · exact reloadInformations_address _ env
        · exact ⟨rfl, rfl⟩

theorem initState_port (name u : String) (r : Int) (fsb md : Bool)
    (cp : Option (List (String × String))) (t : Option String) :
    (Service.initState name u r fsb md cp t).port =
      if pyStartsWith name "port-" then name
      else "port-" ++ pyLower name := rfl

theorem initState_portaddress (name u : String) (r : Int) (fsb md : Bool)
    (cp : Option (List (String × String))) (t : Option String) :
    (Service.initState name u r fsb md cp t).portaddress =
      match t with
      | some a => a
      | none =>
        "http://circle1-" ++
          pyLower (if pyStartsWith name "port-" then name
            else "port-" ++ pyLower name) := rfl

theorem removeFile_eq (s : ServiceState) (env : Env) (i : Int)
    (fs : List String) (k : Nat) (cps : List (String × String))
    (st1 st2 : Nat)
    (hf : s.files = some fs) (hc : s.customProperties = some cps)
    (hk : pyIndex fs.length i = some k)
    (h1 : ∀ p, env.storageFileDelete p = some st1)
    (h2 : ∀ j, env.metadataFileDelete j = some st2) :
    Service.removeFile s env i =
      if (s.fileStorage && decide (st1 < 300)) ||
          (s.metadata && decide (st2 < 300)) then
        (Except.ok true, { s with files := some (fs.eraseIdx k) })
      else (Except.ok false, s) := by
  unfold Service.removeFile
  simp only [hf, hk, getFilepath_some s cps hc, Service.getProjectId,
    getProperty_some s cps _ hc, h1, h2]
  cases hfsb : s.fileStorage <;> cases hmdb : s.metadata <;> simp

/-! ### Claim theorems -/

/-- Claim C1: for every adapter (with list-valued properties and cache)
and every in-range index into `cachedFiles`, `removeFile` returns `true`
iff at least one enabled capability branch (storage delete or metadata
delete) reports a success status (< 300); on `true` the entry at the
resolved index is removed, so the cache length decreases by exactly one,
and on `false` (including when neither capability is enabled) the
adapter state, `cachedFiles` included, is left unchanged. -/
theorem removeFile_or_merge (s : ServiceState) (env : Env) (i : Int)
    (fs : List String) (k : Nat) (cps : List (String × String))
    (st1 st2 : Nat)
    (hf : s.files = some fs) (hc : s.customProperties = some cps)
    (hk : pyIndex fs.length i = some k)
    (h1 : ∀ p, env.storageFileDelete p = some st1)
    (h2 : ∀ j, env.metadataFileDelete j = some st2) :
    Service.removeFile s env i =
      (if (s.fileStorage && decide (st1 < 300)) ||
          (s.metadata && decide (st2 < 300)) then
        (Except.ok true, { s with files := some (fs.eraseIdx k) })
      else (Except.ok false, s)) ∧
    (fs.eraseIdx k).length + 1 = fs.length := by
  refine ⟨removeFile_eq s env i fs k cps st1 st2 hf hc hk h1 h2, ?_⟩
  have hklt := pyIndex_lt _ _ _ hk
  rw [List.length_eraseIdx, if_pos hklt]
  omega

/-- Claim C1 witness: both capabilities enabled on cache
`["a.txt", "b.txt"]`, the storage delete failing with 500 and the
metadata delete succeeding with 204: `removeFile 0` returns `true` and
the cache becomes `["b.txt"]`, one entry shorter. -/
theorem removeFile_or_merge_witness :
    (Service.removeFile sBoth envW 0).1 = Except.ok true ∧
    (Service.removeFile sBoth envW 0).2.files = some ["b.txt"] := by
  have h := removeFile_or_merge sBoth envW 0 ["a.txt", "b.txt"] 0 cpsW 500 204
    rfl rfl (by decide) (fun _ => rfl) (fun _ => rfl)
  rw [h.1]
  refine ⟨by simp [sBoth, mkState], by simp [sBoth, mkState]⟩

/-- Claim C2 counterexample: constructing an adapter with the empty port
name does not fail — the constructor performs no name validation;
construction succeeds, normalizing the name to `port-` and deriving the
address `http://circle1-port-`. -/
theorem init_empty_name_succeeds :
    Service.init "" "u" 0 false false none none envNone =
      Except.ok
        { servicename := ""
          port := "port-"
          portaddress := "http://circle1-port-"
          userId := "u"
          researchIndex := 0
          fileStorage := false
          metadata := false
          customProperties := none
          files := some []
          useZipForFolder := false
          fileTransferMode := 0
          loginMode := 1
          credentials := none } := by
  decide

/-- Claim C2 amended: construction performs no name validation, so an
empty port name is accepted like any other (and with no capabilities
construction always succeeds).  Whenever construction succeeds, the
stored port name is the input unchanged when it already starts with
`port-` and `port-<lowercased input>` otherwise, and the base address is
`http://circle1-<normalized name lowercased>` unless a testing override
address is supplied. -/
theorem init_normalizes_name (name u : String) (r : Int) (fsb md : Bool)
    (cp : Option (List (String × String))) (t : Option String) (env : Env)
    (s : ServiceState) :
    (Service.init name u r fsb md cp t env = Except.ok s →
      s.port =
        (if pyStartsWith name "port-" then name
         else "port-" ++ pyLower name) ∧
      s.portaddress =
        (match t with
         | some a => a
         | none =>
           "http://circle1-" ++
             pyLower (if pyStartsWith name "port-" then name
              else "port-" ++ pyLower name))) ∧
    (Service.init name u r false false cp t env).isOk = true := by
  constructor
  · intro h
    unfold Service.init at h
    rcases hre : Service.reload (Service.initState name u r fsb md cp t) env
      with ⟨res, s1⟩
    rw [hre] at h
    cases res with
    | error e => simp at h
    | ok uu =>
      cases uu
      have hs : s1 = s := by simpa using h
      have ha := reload_address (Service.initState name u r fsb md cp t) env
      rw [hre] at ha
      have hb1 : s1.port = (Service.initState name u r fsb md cp t).port := ha.1
      have hb2 : s1.portaddress =
          (Service.initState name u r fsb md cp t).portaddress := ha.2
      rw [← hs]
      exact ⟨hb1.trans (initState_port name u r fsb md cp t),
             hb2.trans (initState_portaddress name u r fsb md cp t)⟩
  · rfl

/-- Claim C2 amended witness: `Service("x", "u", 0)` succeeds and stores
the normalized port name `port-x` and address `http://circle1-port-x`. -/
theorem init_normalizes_name_witness :
    sNoProps.port = "port-x" ∧ sNoProps.portaddress = "http://circle1-port-x" := by
  have h := (init_normalizes_name "x" "u" 0 false false none none envNone
    sNoProps).1 (by decide)
  refine ⟨by rw [h.1]; rfl, by rw [h.2]; rfl⟩

/-- Claim C3 counterexample: with `FileStorage` enabled and a folder
answer carrying no `files` field, `reload` succeeds but stores the
Python null into the cache — `cachedFiles` becomes `None`, not the
empty sequence. -/
theorem reload_missing_files_not_empty :
    (Service.reload sStore envMissingFiles).1 = Except.ok () ∧
    (Service.reload sStore envMissingFiles).2.files = none ∧
    (Service.reload sStore envMissingFiles).2.files ≠ some [] := by
  refine ⟨rfl, rfl, by decide⟩

/-- Claim C3 amended: with `FileStorage` enabled, `reload` replaces
`cachedFiles` with exactly the `files` field of the folder answer; when
that field is missing the cache becomes the null value `None` (on which
later iteration raises), not the empty sequence. -/
theorem reload_stores_files_field (s : ServiceState) (env : Env)
    (resp : Option (List String)) (cps : List (String × String))
    (hfs : s.fileStorage = true) (hc : s.customProperties = some cps)
    (hsf : env.storageFolder = some resp) :
    (Service.reload s env).2.files = resp := by
  unfold Service.reload
  simp only [hfs, if_true, getFilepath_some s cps hc, hsf]
  split
  · rw [reloadInformations_files]
  · rfl

/-- Claim C3 amended witness: a listing answering `["c.txt"]` replaces
the cache of the storage-only adapter with exactly `["c.txt"]`. -/
theorem reload_stores_files_field_witness :
    (Service.reload sStore envListC).2.files = some ["c.txt"] :=
  reload_stores_files_field sStore envListC (some ["c.txt"]) cpsW rfl rfl rfl

/-- Claim C4 counterexample: on an adapter with both capabilities and
cache `["a.txt", "b.txt"]`, a reachable storage backend answering
`["b.txt"]` followed by an unreachable metadata backend makes `reload`
raise — yet `cachedFiles` has already been replaced by `["b.txt"]`, so a
failure in the metadata branch does not leave the cache as it was. -/
theorem reload_metadata_failure_keeps_new_listing :
    sBoth.files = some ["a.txt", "b.txt"] ∧
    (Service.reload sBoth envMetaDown).1 = Except.error PyErr.networkError ∧
    (Service.reload sBoth envMetaDown).2.files = some ["b.txt"] := by
  refine ⟨rfl, rfl, rfl⟩

/-- Claim C4 amended: `reload` fails hard when a branch is unreachable,
and each branch is individually atomic — a storage-branch failure leaves
`cachedFiles` unchanged, and so does a metadata-branch failure on an
adapter without `FileStorage`; but when both capabilities are enabled
and the metadata branch fails after the storage branch succeeded,
`cachedFiles` has already been fully replaced with the new listing. -/
theorem reload_branch_atomicity (s : ServiceState) (env : Env)
    (cps : List (String × String)) (resp : Option (List String))
    (hc : s.customProperties = some cps) :
    (s.fileStorage = true → env.storageFolder = none →
      Service.reload s env = (Except.error PyErr.networkError, s)) ∧
    (s.fileStorage = false → s.metadata = true →
      env.metadataInformations = none →
      Service.reload s env = (Except.error PyErr.networkError, s)) ∧
    (s.fileStorage = true → s.metadata = true →
      env.storageFolder = some resp → env.metadataInformations = none →
      Service.reload s env =
        (Except.error PyErr.networkError, { s with files := resp })) := by
  refine ⟨?_, ?_, ?_⟩
  · intro hfs hsf
    unfold Service.reload
    simp [hfs, getFilepath_some s cps hc, hsf]
  · intro hfs hmd hmi
    unfold Service.reload Service.reloadInformations
    simp [hfs, hmd, hmi]
  · intro hfs hmd hsf hmi
    unfold Service.reload Service.reloadInformations
    simp [hfs, getFilepath_some s cps hc, hsf, hmd, hmi]

/-- Claim C4 amended witness: the counterexample scenario evaluated
through the amended theorem — the metadata branch fails after the
storage branch replaced the cache with `["b.txt"]`. -/
theorem reload_branch_atomicity_witness :
    Service.reload sBoth envMetaDown =
      (Except.error PyErr.networkError, { sBoth with files := some ["b.txt"] }) := by
  have h := (reload_branch_atomicity sBoth envMetaDown cpsW
    (some ["b.txt"]) rfl).2.2
  exact h rfl rfl rfl rfl

/-- Claim C5: on an adapter with `FileStorage` disabled, `getFile`
returns the empty byte buffer for every valid (in-range) index and its
result does not depend on the backend oracle at all — no network call is
made; for every index out of range of `cachedFiles`, `getFile` fails
with the `IndexError`-class condition. -/
theorem getFile_no_storage (s : ServiceState) (env : Env) (i : Int)
    (fs : List String) (hf : s.files = some fs) :
    (s.fileStorage = false → ∀ k, pyIndex fs.length i = some k →
      Service.getFile s env i = Except.ok []) ∧
    (s.fileStorage = false → ∀ env2 : Env,
      Service.getFile s env i = Service.getFile s env2 i) ∧
    (pyIndex fs.length i = none →
      Service.getFile s env i = Except.error PyErr.indexError) := by
  refine ⟨?_, ?_, ?_⟩
  · intro hfs k hk
    unfold Service.getFile
    simp [hf, hk, hfs]
  · intro hfs env2
    unfold Service.getFile
    rcases hk : pyIndex fs.length i with _ | k <;> simp [hf, hk, hfs]
  · intro hk
    unfold Service.getFile
    simp [hf, hk]

/-- Claim C5 witness: on the metadata-only adapter with one cached file,
`getFile 0` returns the empty buffer even against the unreachable
backend, agrees with its value under any other backend, and `getFile 5`
raises the index error. -/
theorem getFile_no_storage_witness :
    Service.getFile sMeta envNone 0 = Except.ok [] ∧
    Service.getFile sMeta envNone 0 = Service.getFile sMeta envW 0 ∧
    Service.getFile sMeta envNone 5 = Except.error PyErr.indexError := by
  have h := getFile_no_storage sMeta envNone 0 ["a.txt"] rfl
  have h5 := getFile_no_storage sMeta envNone 5 ["a.txt"] rfl
  exact ⟨h.1 rfl 0 (by decide), h.2.1 rfl envW, h5.2.2 (by decide)⟩

/-- Claim C6 counterexample: an adapter constructed without custom
properties (the constructor default, `customProperties = None`) is a
real adapter, and `getProperty` on it raises a `TypeError` instead of
returning null — so lookup does not "never raise" for every adapter. -/
theorem getProperty_none_raises :
    Service.init "x" "u" 0 false false none none envNone =
      Except.ok sNoProps ∧
    Service.getProperty sNoProps "filepath" = Except.error PyErr.typeError := by
  exact ⟨by decide, rfl⟩

/-- Claim C6 amended: on every adapter whose `customProperties` is an
actual property list, `getProperty` returns the value of the first pair
whose key matches, returns null when no pair matches, and never raises;
on an adapter left with the `customProperties = None` constructor
default, it instead raises a `TypeError`.  (Lookup is pure, so repeated
calls trivially agree.) -/
theorem getProperty_first_match (s : ServiceState)
    (ps : List (String × String)) (key : String)
    (hc : s.customProperties = some ps) :
    Service.getProperty s key =
      Except.ok ((ps.find? (fun p => p.1 == key)).map Prod.snd) ∧
    ((∀ p ∈ ps, p.1 ≠ key) →
      Service.getProperty s key = Except.ok none) := by
  have h := getProperty_some s ps key hc
  constructor
  · rw [h, scan_eq_find]
  · intro hnone
    rw [h, scan_eq_find]
    have hfind : ps.find? (fun p => p.1 == key) = none := by
      rw [List.find?_eq_none]
      intro p hp
      simpa using hnone p hp
    rw [hfind]
    rfl

/-- Claim C6 amended witness: on the metadata-only adapter the first
`projectId` pair is returned, and an absent key yields null. -/
theorem getProperty_first_match_witness :
    Service.getProperty sMeta "projectId" = Except.ok (some "p") ∧
    Service.getProperty sMeta "missing" = Except.ok none := by
  have h1 := (getProperty_first_match sMeta cpsW "projectId" rfl).1
  have h2 := (getProperty_first_match sMeta cpsW "missing" rfl).2
  exact ⟨by rw [h1]; rfl, h2 (by decide)⟩

/-- Claim C7: `triggerPassiveMode` returns true unconditionally when the
`Metadata` capability is absent (for any backend, no call is made),
returns false when `Metadata` is enabled and the backend answers a
status ≥ 300, and returns true otherwise. -/
theorem triggerPassiveMode_contract (s : ServiceState) (env : Env)
    (folder : String) (fs : List String) (cps : List (String × String))
    (st : Nat) (hf : s.files = some fs) (hc : s.customProperties = some cps) :
    (s.metadata = false → ∀ env2 : Env,
      Service.triggerPassiveMode s env2 folder = Except.ok true) ∧
    (s.metadata = true → env.metadataTriggerPost = some st →
      Service.triggerPassiveMode s env folder =
        Except.ok (decide (st < 300))) := by
  constructor
  · intro hmd env2
    unfold Service.triggerPassiveMode Service.getDict
    simp [hf, hmd]
  · intro hmd hst
    unfold Service.triggerPassiveMode Service.getDict
    simp only [hf, hmd, if_true, Service.getProjectId,
      getProperty_some s cps _ hc, hst]
    rcases Nat.lt_or_ge st 300 with hlt | hge
    · rw [if_neg (by omega)]
      simp [hlt]
    · rw [if_pos (by omega)]
      simp [Nat.not_lt.mpr hge]

/-- Claim C7 witness: the storage-only adapter returns true against the
dead backend (capability absent), and the metadata-only adapter returns
true for the 200 answer of the witness backend. -/
theorem triggerPassiveMode_contract_witness :
    Service.triggerPassiveMode sStore envNone "folder0" = Except.ok true ∧
    Service.triggerPassiveMode sMeta envW "folder0" = Except.ok true := by
  have h1 := (triggerPassiveMode_contract sStore envNone "folder0" ["a.txt"]
    cpsW 0 rfl rfl).1 rfl envNone
  have h2 := (triggerPassiveMode_contract sMeta envW "folder0" ["a.txt"]
    cpsW 200 rfl rfl).2 rfl rfl
  exact ⟨h1, by rw [h2]; decide⟩

/-- Claim C8: `addFile` returns false exactly when the `Metadata`
capability is enabled and the backend answers a status ≥ 300, returns
true in every other case (the storage branch never vetoes success, even
with `FileStorage` enabled), and never mutates the adapter state —
`cachedFiles` included — on success or on failure. -/
theorem addFile_metadata_veto (s : ServiceState) (env : Env)
    (fn : String) (c : List Nat) (fs : List String)
    (cps : List (String × String)) (st : Nat)
    (hf : s.files = some fs) (hc : s.customProperties = some cps)
    (hp : env.metadataAddPost = some st) :
    (Service.addFile s env fn c).1 =
      Except.ok (!(s.metadata && decide (300 ≤ st))) ∧
    (∀ s2 env2 fn2 c2, (Service.addFile s2 env2 fn2 c2).2 = s2) := by
  constructor
  · unfold Service.addFile Service.getDict
    simp only [hf, Service.getProjectId, getProperty_some s cps _ hc, hp]
    rcases hmd : s.metadata with _ | _
    · simp
    · simp only [if_true]
      rcases Nat.lt_or_ge st 300 with hlt | hge
      · rw [if_neg (by omega)]
        simp [Nat.not_le.mpr hlt]
      · rw [if_pos (by omega)]
        simp [hge]
  · intro s2 env2 fn2 c2
    unfold Service.addFile Service.getDict
    rcases s2.files with _ | fs2
    · rfl
    · simp only []
      rcases hmd : s2.metadata with _ | _
      · simp
      · simp only [if_true]
        rcases Service.getProjectId s2 with e | v
        · rfl
        · rcases env2.metadataAddPost with _ | st2
          · rfl
          · simp only []
            split <;> rfl

/-- Claim C8 witness: the metadata-only adapter with the witness backend
(upload rejected with 404) gets `false` from `addFile` and keeps its
state; the storage-only adapter gets `true` although `FileStorage` is
enabled and nothing was uploaded. -/
theorem addFile_metadata_veto_witness :
    (Service.addFile sMeta envW "n.txt" [1]).1 = Except.ok false ∧
    (Service.addFile sMeta envW "n.txt" [1]).2 = sMeta ∧
    (Service.addFile sStore envW "n.txt" [1]).1 = Except.ok true := by
  have h := addFile_metadata_veto sMeta envW "n.txt" [1] ["a.txt"] cpsW 404
    rfl rfl rfl
  have h2 := addFile_metadata_veto sStore envW "n.txt" [1] ["a.txt"] cpsW 404
    rfl rfl rfl
  exact ⟨by rw [h.1]; rfl, h.2 sMeta envW "n.txt" [1], by rw [h2.1]; rfl⟩

theorem removeAllFiles_eq (s : ServiceState) (env : Env)
    (cps : List (String × String)) (st : Nat)
    (hc : s.customProperties = some cps)
    (hst : env.metadataFilesDeleteAll = some st) :
    Service.removeAllFiles s env =
      if s.fileStorage || (s.metadata && decide (st < 300)) then
        ((Service.reload s env).1.map (fun _ => true),
         (Service.reload s env).2)
      else (Except.ok false, s) := by
  unfold Service.removeAllFiles
  rcases hre : Service.reload s env with ⟨r, s1⟩
  rcases hmd : s.metadata with _ | _ <;>
    rcases hfs : s.fileStorage with _ | _ <;>
      rcases hlt : decide (st < 300) with _ | _ <;>
        simp only [hmd, hfs, hlt, Service.getProjectId,
          getProperty_some s cps _ hc, hst, if_true, if_false,
          Bool.false_and, Bool.true_and, Bool.false_or, Bool.or_false,
          Bool.true_or, Bool.or_true, hre] <;>
        cases r <;> simp [Except.map]

/-- Claim C9: `removeAllFiles` treats the `FileStorage` branch as an
unconditional success issuing no storage-side request (the result does
not depend on the storage file endpoints at all, and any adapter with
`FileStorage` enabled gets the success outcome), OR-merges that flag
with the metadata bulk-delete result, and whenever the merged flag is
success it runs a full `reload` — the final state is the reloaded one,
not a locally cleared cache; when the merged flag is failure it returns
false with the state untouched. -/
theorem removeAllFiles_contract (s : ServiceState) (env : Env)
    (cps : List (String × String)) (st : Nat)
    (hc : s.customProperties = some cps)
    (hst : env.metadataFilesDeleteAll = some st) :
    (s.fileStorage = true ∨ (s.metadata = true ∧ st < 300) →
      Service.removeAllFiles s env =
        ((Service.reload s env).1.map (fun _ => true),
         (Service.reload s env).2)) ∧
    (s.fileStorage = false → (s.metadata = false ∨ 300 ≤ st) →
      Service.removeAllFiles s env = (Except.ok false, s)) ∧
    (∀ d g, Service.removeAllFiles s
        { env with storageFileDelete := d, storageFileGet := g } =
          Service.removeAllFiles s env) := by
  refine ⟨?_, ?_, fun d g => rfl⟩
  · intro hor
    rw [removeAllFiles_eq s env cps st hc hst]
    have : (s.fileStorage || (s.metadata && decide (st < 300))) = true := by
      rcases hor with h | ⟨h1, h2⟩
      · simp [h]
      · simp [h1, h2]
    rw [this, if_pos rfl]
  · intro hfs hrest
    rw [removeAllFiles_eq s env cps st hc hst]
    have : (s.fileStorage || (s.metadata && decide (st < 300))) = false := by
      rcases hrest with h | h
      · simp [hfs, h]
      · simp [hfs, Nat.not_lt.mpr h]
    rw [this, if_neg (by simp)]

/-- Claim C9 witness: the two-capability adapter against the witness
backend (bulk delete 204, listing `[]`): `removeAllFiles` reports
success and the state is the reloaded one — the cache was resynchronized
from the backend listing, and the archive flag was refreshed too. -/
theorem removeAllFiles_contract_witness :
    Service.removeAllFiles sBoth envW =
      (Except.ok true,
        { sBoth with files := some [], useZipForFolder := true }) := by
  have h := (removeAllFiles_contract sBoth envW cpsW 204 rfl rfl).1
    (Or.inl rfl)
  rw [h]
  decide

/-- Claim C10: on an adapter whose cache holds `n ≥ 1` files, a negative
index `i` with `-n ≤ i ≤ -1` is accepted by both `getFile` and
`removeFile`: neither fails with the `IndexError`-class condition, and
each behaves exactly as it does at the nonnegative index `n + i` (so
index `-1` addresses the last cached file); the out-of-range failure
occurs exactly for `i ≥ n` or `i < -n`. -/
theorem negative_index_semantics (s : ServiceState) (env : Env) (i : Int)
    (fs : List String) (cps : List (String × String)) (st1 st2 : Nat)
    (hf : s.files = some fs) (hc : s.customProperties = some cps)
    (hn : 1 ≤ fs.length) (h0 : -(fs.length : Int) ≤ i) (h1 : i ≤ -1)
    (hd1 : ∀ p, env.storageFileDelete p = some st1)
    (hd2 : ∀ j, env.metadataFileDelete j = some st2) :
    Service.getFile s env i = Service.getFile s env (i + fs.length) ∧
    Service.removeFile s env i = Service.removeFile s env (i + fs.length) ∧
    Service.getFile s env i ≠ Except.error PyErr.indexError ∧
    (Service.removeFile s env i).1 ≠ Except.error PyErr.indexError ∧
    (∀ j : Int, (fs.length : Int) ≤ j ∨ j < -(fs.length : Int) →
      Service.getFile s env j = Except.error PyErr.indexError ∧
      (Service.removeFile s env j).1 = Except.error PyErr.indexError) := by
  have hneg : pyIndex fs.length i = some (i + fs.length).toNat :=
    pyIndex_neg _ _ h0 (by omega)
  have hpos : pyIndex fs.length (i + (fs.length : Int)) =
      some (i + fs.length).toNat :=
    pyIndex_pos _ _ (by omega) (by omega)
  have hrm1 := removeFile_eq s env i fs _ cps st1 st2 hf hc hneg hd1 hd2
  have hrm2 := removeFile_eq s env (i + (fs.length : Int)) fs _ cps st1 st2
    hf hc hpos hd1 hd2
  refine ⟨?_, ?_, ?_, ?_, ?_⟩
  · unfold Service.getFile
    simp only [hf, hneg, hpos]
  · rw [hrm1, hrm2]
  · unfold Service.getFile
    simp only [hf, hneg, getFilepath_some s cps hc]
    rcases hfs : s.fileStorage with _ | _
    · simp [hfs]
    · simp only [hfs, if_true]
      split <;> simp
  · rw [hrm1]
    split <;> simp
  · intro j hj
    have hout := pyIndex_out fs.length j hj
    constructor
    · unfold Service.getFile
      simp [hf, hout]
    · unfold Service.removeFile
      simp [hf, hout]

/-- Claim C10 witness: on the two-file adapter, index `-1` behaves like
index `1` for both operations, and index `2` is out of range. -/
theorem negative_index_semantics_witness :
    Service.getFile sBoth envW (-1) = Service.getFile sBoth envW 1 ∧
    Service.removeFile sBoth envW (-1) = Service.removeFile sBoth envW 1 ∧
    (Service.removeFile sBoth envW 2).1 = Except.error PyErr.indexError := by
  have h := negative_index_semantics sBoth envW (-1) ["a.txt", "b.txt"] cpsW
    500 204 rfl rfl (by decide) (by decide) (by decide)
    (fun _ => rfl) (fun _ => rfl)
  exact ⟨h.1, h.2.1, (h.2.2.2.2 2 (by decide)).2⟩
